import Mathlib

/-!
Shallow embedding of the inventory ledger and stock-adjustment subsystem of
the sp-customs backend (FastAPI + SQLAlchemy).  Python integers are modelled
as `Int` (they are unbounded), nullable columns as `Option`, timestamps as
`Nat` ticks, and the per-request unit of work as explicit state passing with
an end-of-handler commit step: a handler that raises before `db.commit()`
leaves the persisted state unchanged.
-/

namespace SpCustoms

/-- Python truthiness of an optional integer (`if data.product_id:`):
`None` and `0` are falsy. -/
def pyTruthyInt : Option Int → Bool
  | none => false
  | some n => n != 0

/-- Python truthiness of an optional string (`if data.barcode:`):
`None` and `""` are falsy. -/
def pyTruthyStr : Option String → Bool
  | none => false
  | some s => s != ""

/-- `app.models.inventory.Inventory`: product-level inventory record.
`location`, timestamps other than `last_scanned_at`, and surrogate keys are
not needed by any claim and are omitted; `last_scanned_at` is a `Nat` tick. -/
structure Inventory where
  quantity : Int
  reserved_quantity : Int
  low_stock_threshold : Int
  reorder_point : Int
  location : String
  track_inventory : Bool
  allow_backorder : Bool
  last_scanned_at : Option Nat
deriving Repr, DecidableEq

/-- `Inventory.available_quantity`: `quantity - reserved_quantity`
(product-level records do not clamp). -/
def Inventory.available_quantity (inv : Inventory) : Int :=
  inv.quantity - inv.reserved_quantity

/-- `Inventory.is_in_stock`. -/
def Inventory.is_in_stock (inv : Inventory) : Bool :=
  inv.available_quantity > 0

/-- `Inventory.is_low_stock`. -/
def Inventory.is_low_stock (inv : Inventory) : Bool :=
  inv.available_quantity ≤ inv.low_stock_threshold

/-- `app.models.variant.VariantInventory`: variant-level inventory record.
Note: the model has no `allow_backorder`, `track_inventory`,
`reorder_point` or `last_scanned_at` column. -/
structure VariantInventory where
  quantity : Int
  reserved_quantity : Int
  low_stock_threshold : Int
deriving Repr, DecidableEq

/-- `VariantInventory.available_quantity`: clamped at `0`, unlike the
product-level property. -/
def VariantInventory.available_quantity (inv : VariantInventory) : Int :=
  max 0 (inv.quantity - inv.reserved_quantity)

/-- `app.models.inventory.InventoryLog`: one audit row per product-level
quantity mutation. -/
structure InventoryLog where
  action : String
  quantity_change : Int
  quantity_before : Int
  quantity_after : Int
  reason : Option String
  reference : Option String
  device_type : Option String
  device_info : Option String
  user_id : Option Int
deriving Repr, DecidableEq

/-- `app.models.variant.VariantInventoryLog`: same shape, for variant-level
records. -/
structure VariantInventoryLog where
  action : String
  quantity_change : Int
  quantity_before : Int
  quantity_after : Int
  reason : Option String
  reference : Option String
  device_type : Option String
  device_info : Option String
  user_id : Option Int
deriving Repr, DecidableEq

/-- `app.models.variant.ProductVariant` (fields the subsystem reads). -/
structure ProductVariant where
  id : Int
  name : String
  sku : Option String
  barcode : Option String
  is_active : Bool
  is_default : Bool
  sort_order : Int
  inventory : Option VariantInventory
deriving Repr, DecidableEq

/-- `app.models.product.Product` (fields the subsystem reads).  The
`variants` list stands for the ORM relationship, which is declared with
`order_by="ProductVariant.sort_order"`: the list is the loaded, sort-ordered
sequence of the product's variants. -/
structure Product where
  id : Int
  name : String
  sku : Option String
  barcode : Option String
  is_active : Bool
  inventory : Option Inventory
  variants : List ProductVariant
deriving Repr, DecidableEq

/-- The relational store restricted to what the subsystem touches. -/
structure DB where
  products : List Product
deriving Repr, DecidableEq

/-- All variants of all products, in table-scan order (what a
`select(ProductVariant)` query ranges over). -/
def DB.allVariants (db : DB) : List ProductVariant :=
  db.products.flatMap (fun p => p.variants)

/-- All (parent product, variant) pairs; a variant's `product` relationship
always yields its parent row. -/
def DB.variantPairs (db : DB) : List (Product × ProductVariant) :=
  db.products.flatMap (fun p => p.variants.map (fun v => (p, v)))

/-- `select(Product).where(Product.id == pid)` + `scalar_one_or_none`. -/
def findProductById (db : DB) (pid : Int) : Option Product :=
  db.products.find? (fun p => p.id == pid)

/-- `select(Product).where(Product.barcode == b)` + `scalar_one_or_none`. -/
def findProductByBarcode (db : DB) (b : String) : Option Product :=
  db.products.find? (fun p => p.barcode == some b)

/-- `select(ProductVariant).where(ProductVariant.barcode == b)` together with
its eagerly loaded parent product. -/
def findVariantByBarcode (db : DB) (b : String) : Option (Product × ProductVariant) :=
  db.variantPairs.find? (fun pv => pv.2.barcode == some b)

/-- `select(ProductVariant).where(ProductVariant.id == vid)`. -/
def findVariantById (db : DB) (vid : Int) : Option ProductVariant :=
  db.allVariants.find? (fun v => v.id == vid)

/-- Replace the inventory record of the product(s) with id `pid` (the Python
mutates the single loaded ORM row; ids are unique, so mapping is the same). -/
def DB.setProductInventory (db : DB) (pid : Int) (inv : Inventory) : DB :=
  ⟨db.products.map (fun p => if p.id == pid then { p with inventory := some inv } else p)⟩

/-- Replace the inventory record of the variant(s) with id `vid`. -/
def DB.setVariantInventory (db : DB) (vid : Int) (vinv : VariantInventory) : DB :=
  ⟨db.products.map (fun p =>
    { p with variants := p.variants.map (fun v =>
        if v.id == vid then { v with inventory := some vinv } else v) })⟩

/-- Look up the product-level inventory record of product `pid`. -/
def getProductInventory (db : DB) (pid : Int) : Option Inventory :=
  (findProductById db pid).bind (fun p => p.inventory)

/-- Look up the variant-level inventory record of variant `vid`. -/
def getVariantInventory (db : DB) (vid : Int) : Option VariantInventory :=
  (findVariantById db vid).bind (fun v => v.inventory)

/-- Python `int(s)` on the digit tail of an encoded barcode: an optional
sign followed by decimal digits (leading zeros allowed). -/
def pyIntParse (s : String) : Option Int :=
  if s.startsWith "-" then ((s.drop 1).toNat?).map (fun n => -(n : Int))
  else if s.startsWith "+" then ((s.drop 1).toNat?).map (fun n => (n : Int))
  else (s.toNat?).map (fun n => (n : Int))

/-- `BarcodeGenerator.decode_barcode`: content starting with `SPC` whose tail
parses as an integer yields that integer as a product id; everything else is
a passthrough (`none`). -/
def decode_barcode (s : String) : Option Int :=
  if s.startsWith "SPC" then pyIntParse (s.drop 3) else none

/-- `InventoryScanRequest` (`app.schemas.inventory`): `quantity` defaults to
`1` and is an unconstrained `int`. -/
structure InventoryScanRequest where
  product_id : Option Int
  barcode : Option String
  action : String
  quantity : Int
  reason : Option String
  device_type : Option String
  device_info : Option String
deriving Repr, DecidableEq

/-- Domain errors surfaced by the scan endpoint (`HTTPException`s in the
source: 404 product-or-variant not found, 404 for a missing inventory row,
400 insufficient stock, 400 invalid action). -/
inductive ScanError where
  | notFound
  | noInventoryRecord
  | insufficientStock
  | invalidAction
deriving Repr, DecidableEq

/-- The inventory record a scan resolved to: either the product's own record
or a variant's record. -/
inductive ScanTarget where
  | productRec (p : Product) (inv : Inventory)
  | variantRec (p : Product) (v : ProductVariant) (inv : VariantInventory)
deriving Repr, DecidableEq

/-- First resolution step of `scan_inventory` (inventory.py): if a barcode
was supplied, try it against variant barcodes. -/
def scanVariantLookup (db : DB) (req : InventoryScanRequest) : Option (Product × ProductVariant) :=
  match req.barcode with
  | some b => if b == "" then none else findVariantByBarcode db b
  | none => none

/-- Second resolution step of `scan_inventory`: locate a product by id if the
id is truthy, otherwise by barcode (decoding the `SPC` form first, then the
raw `barcode` column). -/
def scanProductLookup (db : DB) (req : InventoryScanRequest) : Option Product :=
  if pyTruthyInt req.product_id then
    req.product_id.bind (fun pid => findProductById db pid)
  else if pyTruthyStr req.barcode then
    match req.barcode with
    | some b =>
      match decode_barcode b with
      | some pid => findProductById db pid
      | none => findProductByBarcode db b
    | none => none
  else none

/-- `next((v for v in product.variants if v.is_default), None)` with the
fallback to `product.variants[0]` when no variant is flagged default. -/
def default_variant (p : Product) : Option ProductVariant :=
  match p.variants.find? (fun v => v.is_default) with
  | some v => some v
  | none => p.variants.head?

/-- Resolution portion of `scan_inventory` (inventory.py lines 230-318):
variant barcode first; otherwise product lookup, then — when the product has
variants — the default variant's record, else the product's own record. -/
def resolveScan (db : DB) (req : InventoryScanRequest) : Except ScanError ScanTarget :=
  match scanVariantLookup db req with
  | some (p, v) =>
    match v.inventory with
    | some vi => .ok (.variantRec p v vi)
    | none => .error .noInventoryRecord
  | none =>
    match scanProductLookup db req with
    | none => .error .notFound
    | some p =>
      if p.variants.isEmpty then
        match p.inventory with
        | some inv => .ok (.productRec p inv)
        | none => .error .noInventoryRecord
      else
        match default_variant p with
        | some dv =>
          match dv.inventory with
          | some vi => .ok (.variantRec p dv vi)
          | none => .error .noInventoryRecord
        | none =>
          match p.inventory with
          | some inv => .ok (.productRec p inv)
          | none => .error .noInventoryRecord

/-- Adjustment core of `scan_inventory` (inventory.py lines 320-370) applied
to a product-level record: `scan_in` adds `abs(quantity)`, `scan_out`
subtracts `abs(quantity)` after the stock check, anything else is a 400;
`last_scanned_at` is stamped (`hasattr` holds on `Inventory`), and exactly
one log row is built from the pre-mutation quantity. -/
def scanAdjustProduct (req : InventoryScanRequest) (now : Nat) (inv : Inventory)
    (user_id : Option Int) : Except ScanError (Inventory × InventoryLog) :=
  if req.action == "scan_in" then
    let change := |req.quantity|
    let inv' := { inv with quantity := inv.quantity + change, last_scanned_at := some now }
    .ok (inv', { action := req.action, quantity_change := change,
                 quantity_before := inv.quantity, quantity_after := inv.quantity + change,
                 reason := req.reason, reference := none,
                 device_type := req.device_type, device_info := req.device_info,
                 user_id := user_id })
  else if req.action == "scan_out" then
    let change := -|req.quantity|
    if inv.quantity + change < 0 then .error .insufficientStock
    else
      let inv' := { inv with quantity := inv.quantity + change, last_scanned_at := some now }
      .ok (inv', { action := req.action, quantity_change := change,
                   quantity_before := inv.quantity, quantity_after := inv.quantity + change,
                   reason := req.reason, reference := none,
                   device_type := req.device_type, device_info := req.device_info,
                   user_id := user_id })
  else .error .invalidAction

/-- The same adjustment core applied to a variant-level record:
`VariantInventory` has no `last_scanned_at` attribute, so only the quantity
moves; the log row goes to the variant log table. -/
def scanAdjustVariant (req : InventoryScanRequest) (inv : VariantInventory)
    (user_id : Option Int) : Except ScanError (VariantInventory × VariantInventoryLog) :=
  if req.action == "scan_in" then
    let change := |req.quantity|
    let inv' := { inv with quantity := inv.quantity + change }
    .ok (inv', { action := req.action, quantity_change := change,
                 quantity_before := inv.quantity, quantity_after := inv.quantity + change,
                 reason := req.reason, reference := none,
                 device_type := req.device_type, device_info := req.device_info,
                 user_id := user_id })
  else if req.action == "scan_out" then
    let change := -|req.quantity|
    if inv.quantity + change < 0 then .error .insufficientStock
    else
      let inv' := { inv with quantity := inv.quantity + change }
      .ok (inv', { action := req.action, quantity_change := change,
                   quantity_before := inv.quantity, quantity_after := inv.quantity + change,
                   reason := req.reason, reference := none,
                   device_type := req.device_type, device_info := req.device_info,
                   user_id := user_id })
  else .error .invalidAction

/-- `OrderItemCreate` (`app.schemas.order`), restricted to the fields the
deduction path reads; `quantity` defaults to `1` and is unconstrained. -/
structure OrderItemInput where
  product_id : Option Int
  variant_id : Option Int
  product_name : String
  variant_name : Option String
  quantity : Int
deriving Repr, DecidableEq

/-- A persisted order header with its line items (the fields the claims
mention). -/
structure Order where
  order_number : String
  status : String
  items : List OrderItemInput
deriving Repr, DecidableEq

/-- The persisted state a request handler commits against: the relational
rows the subsystem owns.  A handler that raises before its `db.commit()`
leaves the whole `Store` unchanged (FastAPI dependency teardown rolls the
session back). -/
structure Store where
  db : DB
  orders : List Order
  inventory_logs : List InventoryLog
  variant_logs : List VariantInventoryLog
deriving Repr, DecidableEq

/-- `scan_inventory` end to end over the persisted state: resolve the
target, run the adjustment core, write the updated record and the single log
row back, commit. -/
def scan_inventory (now : Nat) (st : Store) (req : InventoryScanRequest)
    (user_id : Option Int) : Except ScanError Store :=
  match resolveScan st.db req with
  | .error e => .error e
  | .ok (.productRec p inv) =>
    match scanAdjustProduct req now inv user_id with
    | .error e => .error e
    | .ok (inv', log) =>
      .ok { st with db := st.db.setProductInventory p.id inv',
                    inventory_logs := st.inventory_logs ++ [log] }
  | .ok (.variantRec _ v vi) =>
    match scanAdjustVariant req vi user_id with
    | .error e => .error e
    | .ok (vi', vlog) =>
      .ok { st with db := st.db.setVariantInventory v.id vi',
                    variant_logs := st.variant_logs ++ [vlog] }

/-- The state actually persisted by a scan request: the handler's result on
success, the untouched state when it raises. -/
def scan_commit (now : Nat) (st : Store) (req : InventoryScanRequest)
    (user_id : Option Int) : Store :=
  match scan_inventory now st req user_id with
  | .ok st' => st'
  | .error _ => st

/-- `InventoryUpdate` (`app.schemas.inventory`): partial update payload;
`none` means the field was unset (`exclude_unset=True`). -/
structure InventoryUpdate where
  quantity : Option Int
  low_stock_threshold : Option Int
  reorder_point : Option Int
  track_inventory : Option Bool
  allow_backorder : Option Bool
  location : Option String
deriving Repr, DecidableEq

/-- `update_inventory` (inventory.py lines 145-215) on the located record:
when a quantity is supplied and differs from the current one, one
`adjustment` log row is built from the old and new values; then every
supplied field is written.  `last_scanned_at` is not an updatable field. -/
def update_inventory (data : InventoryUpdate) (inv : Inventory)
    (user_id : Option Int) : Inventory × Option InventoryLog :=
  let log? : Option InventoryLog :=
    match data.quantity with
    | some q =>
      if q != inv.quantity then
        some { action := "adjustment", quantity_change := q - inv.quantity,
               quantity_before := inv.quantity, quantity_after := q,
               reason := some "Manual adjustment", reference := none,
               device_type := none, device_info := none, user_id := user_id }
      else none
    | none => none
  let inv' : Inventory :=
    { inv with
      quantity := data.quantity.getD inv.quantity,
      low_stock_threshold := data.low_stock_threshold.getD inv.low_stock_threshold,
      reorder_point := data.reorder_point.getD inv.reorder_point,
      track_inventory := data.track_inventory.getD inv.track_inventory,
      allow_backorder := data.allow_backorder.getD inv.allow_backorder,
      location := data.location.getD inv.location }
  (inv', log?)

/-- `update_variant_inventory` (variants.py lines 547-590) on the located
record: `set` writes the target, `add` adds, `remove` clamps at zero; a log
row is built only when the resulting quantity differs from the old one. -/
def update_variant_inventory (adjustment_type : String) (quantity : Int)
    (reason : Option String) (inv : VariantInventory)
    (user_id : Option Int) : VariantInventory × Option VariantInventoryLog :=
  let old_quantity := inv.quantity
  let new_quantity :=
    if adjustment_type == "set" then quantity
    else if adjustment_type == "add" then old_quantity + quantity
    else if adjustment_type == "remove" then max 0 (old_quantity - quantity)
    else old_quantity
  let quantity_change := new_quantity - old_quantity
  let log? : Option VariantInventoryLog :=
    if quantity_change != 0 then
      some { action := adjustment_type, quantity_change := quantity_change,
             quantity_before := old_quantity, quantity_after := new_quantity,
             reason := some (reason.getD ("Manual " ++ adjustment_type ++ " adjustment")),
             reference := none, device_type := none, device_info := none,
             user_id := user_id }
    else none
  ({ inv with quantity := new_quantity }, log?)

/-- Errors of the variant-inventory update endpoint: FastAPI `Query`
validation (`ge=0` on `quantity`, the `set|add|remove` pattern on
`adjustment_type`) and the 404 for a missing record. -/
inductive UpdateError where
  | validationError
  | notFound
deriving Repr, DecidableEq

/-- `PUT /variants/{id}/inventory` end to end: validate the query
parameters, locate the `VariantInventory` row, apply the adjustment, append
the log row if one was built, commit. -/
def update_variant_inventory_endpoint (variant_id : Int) (quantity : Int)
    (adjustment_type : String) (reason : Option String) (st : Store)
    (user_id : Option Int) : Except UpdateError Store :=
  if quantity < 0 then .error .validationError
  else if ¬(adjustment_type = "set" ∨ adjustment_type = "add" ∨ adjustment_type = "remove") then
    .error .validationError
  else
    match getVariantInventory st.db variant_id with
    | none => .error .notFound
    | some vi =>
      let res := update_variant_inventory adjustment_type quantity reason vi user_id
      .ok { st with db := st.db.setVariantInventory variant_id res.1,
                    variant_logs := st.variant_logs ++ res.2.toList }

/-- Failures of the order-creation deduction loop.  `insufficientStock`
carries the name shown, the on-hand quantity reported as "Available" and the
requested quantity.  `attributeMissing` models the `AttributeError` the
variant branch raises when it evaluates
`variant_inventory.allow_backorder`: `VariantInventory` has no such column,
and short-circuiting reaches it exactly when the variant's quantity is below
the requested amount. -/
inductive OrderError where
  | insufficientStock (name : String) (available : Int) (requested : Int)
  | attributeMissing
deriving Repr, DecidableEq

/-- Product-record deduction for one order line (orders.py lines 543-578),
reached under `if item_data.product_id:`.  A found product with an inventory
row is checked (`quantity < requested` and backorder disallowed fails the
request), then decremented with a clamp at zero, stamped, and logged with
action `order_out`; a missing product or missing inventory row is silently
skipped. -/
def deductProductStage (now : Nat) (order_number : String) (item : OrderItemInput)
    (user_id : Option Int) (db : DB) : Except OrderError (DB × List InventoryLog) :=
  match item.product_id.bind (fun pid => findProductById db pid) with
  | none => .ok (db, [])
  | some p =>
    match p.inventory with
    | none => .ok (db, [])
    | some inv =>
      if inv.quantity < item.quantity ∧ inv.allow_backorder = false then
        .error (.insufficientStock item.product_name inv.quantity item.quantity)
      else
        let inv' := { inv with quantity := max 0 (inv.quantity - item.quantity),
                               last_scanned_at := some now }
        let log : InventoryLog :=
          { action := "order_out", quantity_change := -item.quantity,
            quantity_before := inv.quantity,
            quantity_after := max 0 (inv.quantity - item.quantity),
            reason := some ("Order " ++ order_number), reference := some order_number,
            device_type := none, device_info := none, user_id := user_id }
        .ok (db.setProductInventory p.id inv', [log])

/-- Variant-record deduction for the same line (orders.py lines 580-601),
reached under `if item_data.variant_id:` nested inside the product branch.
A found variant with an inventory row whose quantity is below the requested
amount evaluates the missing `allow_backorder` attribute and crashes;
otherwise the record is decremented with a clamp at zero and — unlike the
product branch — no log row of any kind is written. -/
def deductVariantStage (item : OrderItemInput) (db : DB) : Except OrderError DB :=
  match item.variant_id.bind (fun vid => findVariantById db vid) with
  | none => .ok db
  | some v =>
    match v.inventory with
    | none => .ok db
    | some vi =>
      if vi.quantity < item.quantity then .error .attributeMissing
      else .ok (db.setVariantInventory v.id { vi with quantity := max 0 (vi.quantity - item.quantity) })

/-- Full inventory deduction for one order line: nothing happens unless
`product_id` is truthy; the variant branch runs only when `variant_id` is
additionally truthy, on the state left by the product branch. -/
def deductForItem (now : Nat) (order_number : String) (item : OrderItemInput)
    (user_id : Option Int) (db : DB) : Except OrderError (DB × List InventoryLog) :=
  if pyTruthyInt item.product_id then
    match deductProductStage now order_number item user_id db with
    | .error e => .error e
    | .ok (db1, logs) =>
      if pyTruthyInt item.variant_id then
        match deductVariantStage item db1 with
        | .error e => .error e
        | .ok db2 => .ok (db2, logs)
      else .ok (db1, logs)
  else .ok (db, [])

/-- The deduction loop of `create_order` (orders.py lines 519-601): line
items processed in order, each on the state left by its predecessors,
accumulating the product-level log rows; the first failure aborts the whole
request. -/
def create_order (now : Nat) (order_number : String) (items : List OrderItemInput)
    (user_id : Option Int) (db : DB) : Except OrderError (DB × List InventoryLog) :=
  match items with
  | [] => .ok (db, [])
  | item :: rest =>
    match deductForItem now order_number item user_id db with
    | .error e => .error e
    | .ok (db1, logs) =>
      match create_order now order_number rest user_id db1 with
      | .error e => .error e
      | .ok (db2, logs') => .ok (db2, logs ++ logs')

/-- `POST /orders` over the persisted state: the order header (status
`pending`) and its items are staged, the deduction loop runs, and everything
is committed together at the end of the handler. -/
def create_order_endpoint (now : Nat) (order_number : String) (st : Store)
    (items : List OrderItemInput) (user_id : Option Int) : Except OrderError Store :=
  match create_order now order_number items user_id st.db with
  | .error e => .error e
  | .ok (db', logs) =>
    .ok { st with db := db',
                  orders := st.orders ++ [{ order_number := order_number,
                                            status := "pending", items := items }],
                  inventory_logs := st.inventory_logs ++ logs }

/-- The state actually persisted by an order-creation request: the staged
state on success, the untouched state when any line item raises (the
`HTTPException` — or `AttributeError` — fires before `db.commit()`, so the
session is rolled back). -/
def create_order_commit (now : Nat) (order_number : String) (st : Store)
    (items : List OrderItemInput) (user_id : Option Int) : Store :=
  match create_order_endpoint now order_number st items user_id with
  | .ok st' => st'
  | .error _ => st

/-- A product-level record with backorder allowed and 3 on hand. -/
def invBackorder3 : Inventory :=
  { quantity := 3, reserved_quantity := 0, low_stock_threshold := 5, reorder_point := 10,
    location := "main", track_inventory := true, allow_backorder := true,
    last_scanned_at := none }

/-- Product 1 holding `invBackorder3`, no variants. -/
def prodBackorder : Product :=
  { id := 1, name := "A", sku := none, barcode := none, is_active := true,
    inventory := some invBackorder3, variants := [] }

/-- Store with just `prodBackorder`. -/
def dbBackorder : DB := { products := [prodBackorder] }

/-- Order line requesting 5 units of product 1. -/
def itemFive : OrderItemInput :=
  { product_id := some 1, variant_id := none, product_name := "A",
    variant_name := none, quantity := 5 }

/-- A record with 5 on hand but 3 reserved (available 2), backorder off. -/
def invReserved : Inventory :=
  { quantity := 5, reserved_quantity := 3, low_stock_threshold := 5, reorder_point := 10,
    location := "main", track_inventory := true, allow_backorder := false,
    last_scanned_at := none }

/-- Product 1 holding `invReserved`. -/
def prodReserved : Product :=
  { id := 1, name := "A", sku := none, barcode := none, is_active := true,
    inventory := some invReserved, variants := [] }

/-- Store with just `prodReserved`. -/
def dbReserved : DB := { products := [prodReserved] }

/-- Order line requesting 4 units of product 1. -/
def itemFour : OrderItemInput :=
  { product_id := some 1, variant_id := none, product_name := "A",
    variant_name := none, quantity := 4 }

/-- A variant-level record with 3 on hand. -/
def vinvThree : VariantInventory :=
  { quantity := 3, reserved_quantity := 0, low_stock_threshold := 5 }

/-- Variant 11, flagged default, holding `vinvThree`. -/
def variantEleven : ProductVariant :=
  { id := 11, name := "V", sku := none, barcode := none, is_active := true,
    is_default := true, sort_order := 0, inventory := some vinvThree }

/-- Product 2 carrying variant 11. -/
def prodWithVariant : Product :=
  { id := 2, name := "P", sku := none, barcode := none, is_active := true,
    inventory := none, variants := [variantEleven] }

/-- Store holding just `prodWithVariant`. -/
def storeWithVariant : Store :=
  { db := { products := [prodWithVariant] }, orders := [],
    inventory_logs := [], variant_logs := [] }

/-- A product-level record with 4 on hand, backorder off. -/
def invFour : Inventory :=
  { quantity := 4, reserved_quantity := 0, low_stock_threshold := 5, reorder_point := 10,
    location := "main", track_inventory := true, allow_backorder := false,
    last_scanned_at := none }

/-- A product-level record with 10 on hand, backorder off. -/
def invTen : Inventory :=
  { quantity := 10, reserved_quantity := 0, low_stock_threshold := 5, reorder_point := 10,
    location := "main", track_inventory := true, allow_backorder := false,
    last_scanned_at := none }

/-- Product 1 holding `invFour`, no variants. -/
def prodFour : Product :=
  { id := 1, name := "A", sku := none, barcode := none, is_active := true,
    inventory := some invFour, variants := [] }

/-- Store holding just `prodFour`. -/
def storeFour : Store :=
  { db := { products := [prodFour] }, orders := [], inventory_logs := [], variant_logs := [] }

/-- A scan request: `scan_out` of 5 against product 1. -/
def reqScanOut5 : InventoryScanRequest :=
  { product_id := some 1, barcode := none, action := "scan_out", quantity := 5,
    reason := none, device_type := none, device_info := none }

/-- A scan request: `scan_out` of 3 against product 1. -/
def reqScanOut3 : InventoryScanRequest :=
  { product_id := some 1, barcode := none, action := "scan_out", quantity := 3,
    reason := none, device_type := none, device_info := none }

/-- A product-level record with 2 on hand, backorder off. -/
def invTwoB : Inventory :=
  { quantity := 2, reserved_quantity := 0, low_stock_threshold := 5, reorder_point := 10,
    location := "main", track_inventory := true, allow_backorder := false,
    last_scanned_at := none }

/-- Product 1 ("A") holding `invTen`. -/
def prodA10 : Product :=
  { id := 1, name := "A", sku := none, barcode := none, is_active := true,
    inventory := some invTen, variants := [] }

/-- Product 2 ("B") holding `invTwoB`. -/
def prodB2 : Product :=
  { id := 2, name := "B", sku := none, barcode := none, is_active := true,
    inventory := some invTwoB, variants := [] }

/-- Store holding products A (10 on hand) and B (2 on hand). -/
def dbAB : DB := { products := [prodA10, prodB2] }

/-- `dbAB` as a full persisted state. -/
def storeAB : Store :=
  { db := dbAB, orders := [], inventory_logs := [], variant_logs := [] }

/-- Order line: 5 units of product A. -/
def itemA5 : OrderItemInput :=
  { product_id := some 1, variant_id := none, product_name := "A",
    variant_name := none, quantity := 5 }

/-- Order line: 3 units of product B. -/
def itemB3 : OrderItemInput :=
  { product_id := some 2, variant_id := none, product_name := "B",
    variant_name := none, quantity := 3 }

/-- A variant-level record with 8 on hand. -/
def vinvEight : VariantInventory :=
  { quantity := 8, reserved_quantity := 0, low_stock_threshold := 5 }

/-- Variant 12 holding `vinvEight`. -/
def variantTwelve : ProductVariant :=
  { id := 12, name := "V2", sku := none, barcode := none, is_active := true,
    is_default := false, sort_order := 1, inventory := some vinvEight }

/-- Product 3 ("C") holding `invTen` at product level and carrying variant
12 with its own record. -/
def prodC : Product :=
  { id := 3, name := "C", sku := none, barcode := none, is_active := true,
    inventory := some invTen, variants := [variantTwelve] }

/-- Store holding just `prodC`. -/
def dbC : DB := { products := [prodC] }

/-- `dbC` as a full persisted state. -/
def storeC : Store :=
  { db := dbC, orders := [], inventory_logs := [], variant_logs := [] }

/-- Order line carrying BOTH ids: 4 units of product 3 / variant 12. -/
def itemC4 : OrderItemInput :=
  { product_id := some 3, variant_id := some 12, product_name := "C",
    variant_name := some "V2", quantity := 4 }

/-- Variant 21: first in sort order, not default. -/
def variant21 : ProductVariant :=
  { id := 21, name := "S", sku := none, barcode := none, is_active := true,
    is_default := false, sort_order := 0, inventory := some vinvThree }

/-- Variant 22: second in sort order, flagged default. -/
def variant22 : ProductVariant :=
  { id := 22, name := "M", sku := none, barcode := none, is_active := true,
    is_default := true, sort_order := 1, inventory := some vinvEight }

/-- Variant 23: third in sort order, not default, no inventory row. -/
def variant23 : ProductVariant :=
  { id := 23, name := "L", sku := none, barcode := none, is_active := true,
    is_default := false, sort_order := 2, inventory := none }

/-- Product 5 ("D") with three variants, the middle one flagged default. -/
def prodD : Product :=
  { id := 5, name := "D", sku := none, barcode := none, is_active := true,
    inventory := some invTen, variants := [variant21, variant22, variant23] }

/-- Store holding just `prodD`. -/
def dbD : DB := { products := [prodD] }

/-- A scan of product 5 by explicit id. -/
def reqScanD : InventoryScanRequest :=
  { product_id := some 5, barcode := none, action := "scan_in", quantity := 1,
    reason := none, device_type := none, device_info := none }

/-- `find?` commutes with a map that does not change whether elements
satisfy the predicate. -/
theorem find?_map_congr {α : Type} (q : α → Bool) (g : α → α)
    (hpres : ∀ a, q (g a) = q a) :
    ∀ l : List α, (l.map g).find? q = (l.find? q).map g
  | [] => rfl
  | a :: l => by
    cases h : q a with
    | true => simp [List.find?, hpres a, h]
    | false => simp [List.find?, hpres a, h, find?_map_congr q g hpres l]

/-- Updating a product's inventory record leaves the variant table
untouched. -/
theorem allVariants_setProductInventory (db : DB) (pid : Int) (inv : Inventory) :
    (db.setProductInventory pid inv).allVariants = db.allVariants := by
  simp only [DB.setProductInventory, DB.allVariants]
  induction db.products with
  | nil => rfl
  | cons p l ih =>
    simp only [List.map_cons, List.flatMap_cons, ih]
    by_cases h : (p.id == pid) = true <;> simp [h]

/-- Updating a variant's inventory record rewrites the variant table
pointwise. -/
theorem allVariants_setVariantInventory (db : DB) (vid : Int) (vi : VariantInventory) :
    (db.setVariantInventory vid vi).allVariants
      = db.allVariants.map (fun v => if v.id == vid then { v with inventory := some vi } else v) := by
  simp only [DB.setVariantInventory, DB.allVariants]
  induction db.products with
  | nil => rfl
  | cons p l ih =>
    simp only [List.map_cons, List.flatMap_cons, ih, List.map_append]

/-- C10: the scan adjustment depends only on the absolute value of the
supplied quantity — for any request, replacing the quantity by its absolute
value gives the identical outcome on both product-level and variant-level
records — and with action `scan_in` the resulting quantity never decreases
while with action `scan_out` a successful result never increases it. -/
theorem scan_adjust_absolute_value :
    (∀ (req : InventoryScanRequest) (now : Nat) (inv : Inventory) (uid : Option Int),
      scanAdjustProduct req now inv uid
        = scanAdjustProduct { req with quantity := |req.quantity| } now inv uid)
  ∧ (∀ (req : InventoryScanRequest) (inv : VariantInventory) (uid : Option Int),
      scanAdjustVariant req inv uid
        = scanAdjustVariant { req with quantity := |req.quantity| } inv uid)
  ∧ (∀ (req : InventoryScanRequest) (now : Nat) (inv : Inventory) (uid : Option Int),
      match scanAdjustProduct { req with action := "scan_in" } now inv uid with
      | .ok r => inv.quantity ≤ r.1.quantity
      | .error _ => True)
  ∧ (∀ (req : InventoryScanRequest) (now : Nat) (inv : Inventory) (uid : Option Int),
      match scanAdjustProduct { req with action := "scan_out" } now inv uid with
      | .ok r => r.1.quantity ≤ inv.quantity
      | .error _ => True)
  ∧ (∀ (req : InventoryScanRequest) (inv : VariantInventory) (uid : Option Int),
      match scanAdjustVariant { req with action := "scan_in" } inv uid with
      | .ok r => inv.quantity ≤ r.1.quantity
      | .error _ => True)
  ∧ (∀ (req : InventoryScanRequest) (inv : VariantInventory) (uid : Option Int),
      match scanAdjustVariant { req with action := "scan_out" } inv uid with
      | .ok r => r.1.quantity ≤ inv.quantity
      | .error _ => True) := by
  refine ⟨?_, ?_, ?_, ?_, ?_, ?_⟩
  · intro req now inv uid
    simp [scanAdjustProduct, abs_abs]
  · intro req inv uid
    simp [scanAdjustVariant, abs_abs]
  · intro req now inv uid
    simp only [scanAdjustProduct]
    norm_num
  · intro req now inv uid
    simp only [scanAdjustProduct]
    norm_num
    rw [if_neg (by decide)]
    by_cases hc : inv.quantity < |req.quantity|
    · rw [if_pos hc]
      trivial
    · rw [if_neg hc]
      simp only
      linarith [abs_nonneg req.quantity]
  · intro req inv uid
    simp only [scanAdjustVariant]
    norm_num
  · intro req inv uid
    simp only [scanAdjustVariant]
    norm_num
    rw [if_neg (by decide)]
    by_cases hc : inv.quantity < |req.quantity|
    · rw [if_pos hc]
      trivial
    · rw [if_neg hc]
      simp only
      linarith [abs_nonneg req.quantity]

/-- C8: the variant manual adjustment with mode `remove` and amount `N` sets
the quantity to `max 0 (quantity - N)`, and on the endpoint it always
succeeds for an existing record and a valid amount — no `InsufficientStock`
is raised even when `N` exceeds the current quantity, unlike `scan_out`. -/
theorem variant_remove_clamps :
    (∀ (q : Int) (r : Option String) (vi : VariantInventory) (uid : Option Int),
      (update_variant_inventory "remove" q r vi uid).1.quantity = max 0 (vi.quantity - q))
  ∧ (∀ (vid q : Int) (r : Option String) (st : Store) (uid : Option Int) (vi : VariantInventory),
      0 ≤ q → getVariantInventory st.db vid = some vi →
      update_variant_inventory_endpoint vid q "remove" r st uid
        = .ok { st with
                db := st.db.setVariantInventory vid
                  { vi with quantity := max 0 (vi.quantity - q) },
                variant_logs := st.variant_logs ++
                  (update_variant_inventory "remove" q r vi uid).2.toList }) := by
  constructor
  · intro q r vi uid
    simp [update_variant_inventory]
  · intro vid q r st uid vi hq hfind
    unfold update_variant_inventory_endpoint
    rw [if_neg (not_lt.mpr hq), if_neg (by decide), hfind]
    simp [update_variant_inventory]

/-- C8 witness: removing 10 from a variant record holding 3 clamps to 0 and
succeeds. -/
theorem variant_remove_clamps_witness :
    update_variant_inventory_endpoint 11 10 "remove" none storeWithVariant none
      = .ok { storeWithVariant with
              db := storeWithVariant.db.setVariantInventory 11
                { vinvThree with quantity := max 0 (vinvThree.quantity - 10) },
              variant_logs := storeWithVariant.variant_logs ++
                (update_variant_inventory "remove" 10 none vinvThree none).2.toList } :=
  variant_remove_clamps.2 11 10 none storeWithVariant none vinvThree (by decide) (by decide)

/-- C7: a `scan_out` requesting more than the on-hand quantity fails with
`InsufficientStock` — and a failed scan persists nothing: the committed
state is exactly the prior state, so the record's quantity is unchanged and
no log row is appended; a `scan_out` whose amount does not exceed the
quantity succeeds and subtracts exactly that amount (one log row).  Stated
for both the product-level and the variant-level record. -/
theorem scan_out_stock_check :
    (∀ (req : InventoryScanRequest) (now : Nat) (inv : Inventory) (uid : Option Int),
      req.action = "scan_out" → 0 ≤ req.quantity →
      (inv.quantity < req.quantity →
        scanAdjustProduct req now inv uid = .error .insufficientStock)
      ∧ (req.quantity ≤ inv.quantity →
        scanAdjustProduct req now inv uid
          = .ok ({ inv with quantity := inv.quantity - req.quantity,
                            last_scanned_at := some now },
                 { action := "scan_out", quantity_change := -req.quantity,
                   quantity_before := inv.quantity,
                   quantity_after := inv.quantity - req.quantity,
                   reason := req.reason, reference := none,
                   device_type := req.device_type, device_info := req.device_info,
                   user_id := uid })))
  ∧ (∀ (req : InventoryScanRequest) (inv : VariantInventory) (uid : Option Int),
      req.action = "scan_out" → 0 ≤ req.quantity →
      (inv.quantity < req.quantity →
        scanAdjustVariant req inv uid = .error .insufficientStock)
      ∧ (req.quantity ≤ inv.quantity →
        scanAdjustVariant req inv uid
          = .ok ({ inv with quantity := inv.quantity - req.quantity },
                 { action := "scan_out", quantity_change := -req.quantity,
                   quantity_before := inv.quantity,
                   quantity_after := inv.quantity - req.quantity,
                   reason := req.reason, reference := none,
                   device_type := req.device_type, device_info := req.device_info,
                   user_id := uid })))
  ∧ (∀ (now : Nat) (st : Store) (req : InventoryScanRequest) (uid : Option Int),
      match scan_inventory now st req uid with
      | .error _ => scan_commit now st req uid = st
      | .ok _ => True) := by
  refine ⟨?_, ?_, ?_⟩
  · intro req now inv uid ha hq
    have habs : |req.quantity| = req.quantity := abs_of_nonneg hq
    constructor
    · intro hlt
      simp [scanAdjustProduct, ha, habs]
      omega
    · intro hle
      simp [scanAdjustProduct, ha, habs]
      rw [if_neg (not_lt.mpr hle)]
      simp [sub_eq_add_neg]
  · intro req inv uid ha hq
    have habs : |req.quantity| = req.quantity := abs_of_nonneg hq
    constructor
    · intro hlt
      simp [scanAdjustVariant, ha, habs]
      omega
    · intro hle
      simp [scanAdjustVariant, ha, habs]
      rw [if_neg (not_lt.mpr hle)]
      simp [sub_eq_add_neg]
  · intro now st req uid
    unfold scan_commit
    cases h : scan_inventory now st req uid <;> simp [h]

/-- C7 witness: scanning 5 out of a record holding 4 fails with
`InsufficientStock` and the committed store is untouched; scanning 3 out of
a record holding 10 succeeds and leaves 7. -/
theorem scan_out_stock_check_witness :
    scanAdjustProduct reqScanOut5 0 invFour none = .error .insufficientStock
    ∧ scan_commit 0 storeFour reqScanOut5 none = storeFour
    ∧ scanAdjustProduct reqScanOut3 0 invTen none
        = .ok ({ invTen with quantity := invTen.quantity - 3, last_scanned_at := some 0 },
               { action := "scan_out", quantity_change := -3,
                 quantity_before := invTen.quantity, quantity_after := invTen.quantity - 3,
                 reason := reqScanOut3.reason, reference := none,
                 device_type := reqScanOut3.device_type,
                 device_info := reqScanOut3.device_info, user_id := none }) :=
  ⟨(scan_out_stock_check.1 reqScanOut5 0 invFour none rfl (by decide)).1 (by decide),
   scan_out_stock_check.2.2 0 storeFour reqScanOut5 none,
   (scan_out_stock_check.1 reqScanOut3 0 invTen none rfl (by decide)).2 (by decide)⟩

/-- C4 counterexample: a variant `add` of amount 0 succeeds (the endpoint
returns the store unchanged) but appends no log row, contradicting the claim
that every successful `add` appends exactly one row even when the quantity
change is zero. -/
theorem always_log_counterexample :
    (update_variant_inventory "add" 0 none vinvThree none).2 = none
    ∧ update_variant_inventory_endpoint 11 0 "add" none storeWithVariant none
        = .ok storeWithVariant := by
  constructor
  · decide
  · rfl

/-- C4 (amended): a successful `scan_in`/`scan_out` always appends exactly
one log row (counting both log tables), even when the change is zero; `set`,
`add` and `remove` each append exactly one row precisely when the resulting
quantity differs from the old one — so an `add` of amount 0, or a `remove`
on a record already at 0, appends none. -/
theorem mutation_logging :
    (∀ (now : Nat) (st : Store) (req : InventoryScanRequest) (uid : Option Int),
      match scan_inventory now st req uid with
      | .ok st' => st'.inventory_logs.length + st'.variant_logs.length
          = st.inventory_logs.length + st.variant_logs.length + 1
      | .error _ => True)
  ∧ (∀ (t : String) (q : Int) (r : Option String) (vi : VariantInventory) (uid : Option Int),
      (update_variant_inventory t q r vi uid).2.isSome
        ↔ (update_variant_inventory t q r vi uid).1.quantity ≠ vi.quantity) := by
  constructor
  · intro now st req uid
    unfold scan_inventory
    cases hr : resolveScan st.db req with
    | error e => simp
    | ok target =>
      cases target with
      | productRec p inv =>
        cases ha : scanAdjustProduct req now inv uid with
        | error e => simp [ha]
        | ok r =>
          obtain ⟨inv', log⟩ := r
          simp [ha]
          omega
      | variantRec p v vi =>
        cases ha : scanAdjustVariant req vi uid with
        | error e => simp [ha]
        | ok r =>
          obtain ⟨vi', vlog⟩ := r
          simp [ha]
          omega
  · intro t q r vi uid
    simp only [update_variant_inventory]
    split_ifs with h <;> simp_all <;> omega

/-- Writing a product's inventory record makes the subsequent read of that
product return the written record. -/
theorem getProductInventory_setProductInventory (db : DB) (pid : Int) (inv' : Inventory)
    (p : Product) (hfind : findProductById db pid = some p) :
    getProductInventory (db.setProductInventory pid inv') pid = some inv' := by
  unfold findProductById at hfind
  have hq : (p.id == pid) = true := by simpa using List.find?_some hfind
  have h2 := find?_map_congr (fun x : Product => x.id == pid)
      (fun x => if x.id == pid then { x with inventory := some inv' } else x)
      (fun a => by by_cases h : (a.id == pid) = true <;> simp [h]) db.products
  unfold getProductInventory findProductById DB.setProductInventory
  rw [h2, hfind]
  have hq2 : p.id = pid := by simpa using hq
  simp [hq2]

/-- Writing a variant's inventory record makes the subsequent read of that
variant return the written record. -/
theorem getVariantInventory_setVariantInventory (db : DB) (vid : Int) (vi' : VariantInventory)
    (v : ProductVariant) (hfind : findVariantById db vid = some v) :
    getVariantInventory (db.setVariantInventory vid vi') vid = some vi' := by
  unfold findVariantById at hfind
  have hq : (v.id == vid) = true := by simpa using List.find?_some hfind
  have h2 := find?_map_congr (fun x : ProductVariant => x.id == vid)
      (fun x => if x.id == vid then { x with inventory := some vi' } else x)
      (fun a => by by_cases h : (a.id == vid) = true <;> simp [h]) db.allVariants
  unfold getVariantInventory findVariantById
  rw [allVariants_setVariantInventory, h2, hfind]
  have hq2 : v.id = vid := by simpa using hq
  simp [hq2]

/-- Writing a variant's inventory record does not affect any product-level
read. -/
theorem getProductInventory_setVariantInventory (db : DB) (vid : Int)
    (vi' : VariantInventory) (pid : Int) :
    getProductInventory (db.setVariantInventory vid vi') pid = getProductInventory db pid := by
  have h2 := find?_map_congr (fun x : Product => x.id == pid)
      (fun x => { x with variants := x.variants.map (fun v =>
        if v.id == vid then { v with inventory := some vi' } else v) })
      (fun a => rfl) db.products
  unfold getProductInventory findProductById DB.setVariantInventory
  rw [h2]
  cases h : db.products.find? (fun x => x.id == pid) <;> simp

/-- Writing a product's inventory record does not affect any variant-level
read. -/
theorem getVariantInventory_setProductInventory (db : DB) (pid : Int)
    (inv' : Inventory) (vid : Int) :
    getVariantInventory (db.setProductInventory pid inv') vid = getVariantInventory db vid := by
  unfold getVariantInventory findVariantById
  rw [allVariants_setProductInventory]

/-- C3 counterexample: an order-time deduction does NOT leave
`last_scanned_at` unchanged — product 1's record starts with no scan
timestamp, and after the order deduction at tick 7 it reads `some 7`. -/
theorem order_touches_last_scanned :
    (getProductInventory dbReserved 1).map (fun i => i.last_scanned_at) = some none
    ∧ ((deductForItem 7 "ORD-1" itemFour none dbReserved).toOption.bind
        (fun r => getProductInventory r.1 1)).map (fun i => i.last_scanned_at)
      = some (some 7) := by
  constructor
  · decide
  · decide

/-- C3 (amended): `last_scanned_at` is refreshed by `scan_in`/`scan_out` and
also by the order-time product deduction; a manual set
(`ManualSetInventory`) leaves it unchanged (it is not an updatable field of
the payload). -/
theorem last_scanned_at_effects :
    (∀ (req : InventoryScanRequest) (now : Nat) (inv : Inventory) (uid : Option Int),
      match scanAdjustProduct req now inv uid with
      | .ok r => r.1.last_scanned_at = some now
      | .error _ => True)
  ∧ (∀ (d : InventoryUpdate) (inv : Inventory) (uid : Option Int),
      (update_inventory d inv uid).1.last_scanned_at = inv.last_scanned_at)
  ∧ (∀ (now : Nat) (ord : String) (item : OrderItemInput) (uid : Option Int) (db : DB)
      (p : Product) (inv : Inventory),
      item.product_id.bind (fun pid => findProductById db pid) = some p →
      p.inventory = some inv →
      ¬(inv.quantity < item.quantity ∧ inv.allow_backorder = false) →
      (deductProductStage now ord item uid db).toOption.map
        (fun r => (getProductInventory r.1 p.id).map (fun i => i.last_scanned_at))
        = some (some (some now))) := by
  refine ⟨?_, ?_, ?_⟩
  · intro req now inv uid
    unfold scanAdjustProduct
    by_cases h1 : (req.action == "scan_in") = true
    · simp [h1]
    · by_cases h2 : (req.action == "scan_out") = true
      · by_cases h3 : inv.quantity + -|req.quantity| < 0
        · simp [h1, h2, h3]
        · simp [h1, h2, h3]
      · simp [h1, h2]
  · intro d inv uid
    simp [update_inventory]
  · intro now ord item uid db p inv hfind hinv hcheck
    cases hpid : item.product_id with
    | none =>
      rw [hpid] at hfind
      simp at hfind
    | some pid =>
      rw [hpid] at hfind
      simp only [Option.some_bind] at hfind
      have hq : p.id = pid := by
        unfold findProductById at hfind
        simpa using List.find?_some hfind
      have hfind2 : findProductById db p.id = some p := by
        rw [hq]
        exact hfind
      unfold deductProductStage
      rw [hpid]
      simp only [Option.some_bind, hfind, hinv]
      rw [if_neg hcheck]
      simp
      exact ⟨_, ⟨_, rfl⟩, _, getProductInventory_setProductInventory db p.id _ p hfind2, rfl⟩

/-- C3 witness: the order-deduction conjunct applied to the concrete store —
after deducting 4 units of product 1 at tick 7 the record reads
`last_scanned_at = some 7`. -/
theorem last_scanned_at_effects_witness :
    (deductProductStage 7 "ORD-1" itemFour none dbReserved).toOption.map
      (fun r => (getProductInventory r.1 prodReserved.id).map (fun i => i.last_scanned_at))
      = some (some (some 7)) :=
  last_scanned_at_effects.2.2 7 "ORD-1" itemFour none dbReserved prodReserved invReserved
    (by decide) (by decide) (by decide)

/-- C2 counterexample: product 1's record has `allow_backorder = false` and
available quantity 2 (5 on hand, 3 reserved); a line requesting 4 exceeds
the available quantity, yet the deduction succeeds (quantity 5 → 1) instead
of failing with `InsufficientStock`: the code compares against the on-hand
`quantity`, not `available_quantity`. -/
theorem order_available_check_counterexample :
    invReserved.allow_backorder = false
    ∧ invReserved.available_quantity = 2
    ∧ itemFour.quantity = 4
    ∧ ((deductForItem 0 "ORD-1" itemFour none dbReserved).toOption.bind
        (fun r => getProductInventory r.1 1)).map (fun i => i.quantity) = some 1 := by
  refine ⟨rfl, by decide, rfl, by decide⟩

/-- C2 (amended): for a line item resolving to a product-level record with
`allow_backorder = false`, the deduction errors with `InsufficientStock`
(naming the product, the on-hand quantity reported as available, and the
requested quantity) exactly when the requested quantity exceeds the
record's on-hand `quantity` — `reserved_quantity` plays no role — and when
it does not exceed it, the product-record deduction proceeds without error,
decrementing the record and appending one `order_out` row. -/
theorem order_stock_check :
    ∀ (now : Nat) (ord : String) (item : OrderItemInput) (uid : Option Int) (db : DB)
      (p : Product) (inv : Inventory),
      pyTruthyInt item.product_id = true →
      item.product_id.bind (fun pid => findProductById db pid) = some p →
      p.inventory = some inv →
      inv.allow_backorder = false →
      ((inv.quantity < item.quantity →
        deductForItem now ord item uid db
          = .error (.insufficientStock item.product_name inv.quantity item.quantity))
      ∧ (item.quantity ≤ inv.quantity →
        deductProductStage now ord item uid db
          = .ok (db.setProductInventory p.id
              { inv with quantity := max 0 (inv.quantity - item.quantity),
                         last_scanned_at := some now },
             [{ action := "order_out", quantity_change := -item.quantity,
                quantity_before := inv.quantity,
                quantity_after := max 0 (inv.quantity - item.quantity),
                reason := some ("Order " ++ ord), reference := some ord,
                device_type := none, device_info := none, user_id := uid }]))) := by
  intro now ord item uid db p inv htr hfind hinv hbo
  cases hpid : item.product_id with
  | none =>
    rw [hpid] at hfind
    simp at hfind
  | some pid =>
    rw [hpid] at hfind
    simp only [Option.some_bind] at hfind
    constructor
    · intro hlt
      have hstage : deductProductStage now ord item uid db
          = .error (.insufficientStock item.product_name inv.quantity item.quantity) := by
        unfold deductProductStage
        rw [hpid]
        simp only [Option.some_bind, hfind, hinv]
        rw [if_pos ⟨hlt, hbo⟩]
      unfold deductForItem
      simp [htr, hstage]
    · intro hle
      unfold deductProductStage
      rw [hpid]
      simp only [Option.some_bind, hfind, hinv]
      rw [if_neg (fun h => absurd h.1 (not_lt.mpr hle))]

/-- C2 witness: requesting 3 of product B (2 on hand, backorder off) fails
the whole line with `InsufficientStock`; requesting 4 against the record
with 5 on hand (3 reserved) deducts without error. -/
theorem order_stock_check_witness :
    deductForItem 0 "ORD-1" itemB3 none dbAB
      = .error (.insufficientStock "B" 2 3)
    ∧ deductProductStage 0 "ORD-1" itemFour none dbReserved
      = .ok (dbReserved.setProductInventory 1
          { invReserved with quantity := max 0 (invReserved.quantity - itemFour.quantity),
                             last_scanned_at := some 0 },
         [{ action := "order_out", quantity_change := -itemFour.quantity,
            quantity_before := invReserved.quantity,
            quantity_after := max 0 (invReserved.quantity - itemFour.quantity),
            reason := some ("Order " ++ "ORD-1"), reference := some "ORD-1",
            device_type := none, device_info := none, user_id := none }]) :=
  ⟨(order_stock_check 0 "ORD-1" itemB3 none dbAB prodB2 invTwoB rfl (by decide) rfl rfl).1
      (by decide),
   (order_stock_check 0 "ORD-1" itemFour none dbReserved prodReserved invReserved rfl
      (by decide) rfl rfl).2 (by decide)⟩

/-- C6: if order creation fails on any line item, nothing is persisted —
the committed state equals the prior state in every component: no order
header, no line items, every inventory record (including ones already
deducted for earlier lines of the same request) at its prior quantity, and
no log row from the request. -/
theorem order_rollback :
    ∀ (now : Nat) (ord : String) (st : Store) (items : List OrderItemInput)
      (uid : Option Int) (e : OrderError),
      create_order_endpoint now ord st items uid = .error e →
      create_order_commit now ord st items uid = st := by
  intro now ord st items uid e h
  unfold create_order_commit
  rw [h]

/-- C6 witness: an order of 5×A (10 on hand) and 3×B (2 on hand, backorder
off) fails on the second line and the committed state is exactly the prior
store — product A's record still reads 10. -/
theorem order_rollback_witness :
    create_order_commit 0 "ORD-1" storeAB [itemA5, itemB3] none = storeAB
    ∧ (getProductInventory ((create_order_commit 0 "ORD-1" storeAB [itemA5, itemB3] none).db) 1).map
        (fun i => i.quantity) = some 10 :=
  ⟨order_rollback 0 "ORD-1" storeAB [itemA5, itemB3] none
      (.insufficientStock "B" 2 3) rfl,
   by
    rw [order_rollback 0 "ORD-1" storeAB [itemA5, itemB3] none
      (.insufficientStock "B" 2 3) rfl]
    decide⟩

/-- Writing a product's inventory record does not affect variant lookup. -/
theorem findVariantById_setProductInventory (db : DB) (pid : Int) (inv' : Inventory)
    (vid : Int) :
    findVariantById (db.setProductInventory pid inv') vid = findVariantById db vid := by
  unfold findVariantById
  rw [allVariants_setProductInventory]

/-- C5: a line item carrying both a `product_id` and a `variant_id`, with
both records present and sufficient stock, decrements BOTH records by the
line quantity (a double deduction), appends exactly one `order_out`
product-level log row, and order creation never appends a variant-level log
row. -/
theorem order_double_deduction :
    (∀ (now : Nat) (ord : String) (item : OrderItemInput) (uid : Option Int) (db : DB)
      (pid vid : Int) (p : Product) (inv : Inventory) (v : ProductVariant)
      (vi : VariantInventory),
      item.product_id = some pid → pid ≠ 0 →
      item.variant_id = some vid → vid ≠ 0 →
      findProductById db pid = some p → p.inventory = some inv →
      findVariantById db vid = some v → v.inventory = some vi →
      item.quantity ≤ inv.quantity → item.quantity ≤ vi.quantity →
      ∃ db2 log,
        deductForItem now ord item uid db = .ok (db2, [log])
        ∧ getProductInventory db2 p.id
            = some { inv with quantity := inv.quantity - item.quantity,
                              last_scanned_at := some now }
        ∧ getVariantInventory db2 v.id
            = some { vi with quantity := vi.quantity - item.quantity }
        ∧ log.action = "order_out"
        ∧ log.quantity_change = -item.quantity
        ∧ log.quantity_before = inv.quantity
        ∧ log.quantity_after = inv.quantity - item.quantity)
  ∧ (∀ (now : Nat) (ord : String) (st : Store) (items : List OrderItemInput)
      (uid : Option Int),
      match create_order_endpoint now ord st items uid with
      | .ok st' => st'.variant_logs = st.variant_logs
      | .error _ => True) := by
  constructor
  · intro now ord item uid db pid vid p inv v vi hpid hpid0 hvid hvid0 hfind hinv
      hvfind hvinv hple hvle
    have hpq : p.id = pid := by
      unfold findProductById at hfind
      simpa using List.find?_some hfind
    have hvq : v.id = vid := by
      unfold findVariantById at hvfind
      simpa using List.find?_some hvfind
    have hmaxp : max 0 (inv.quantity - item.quantity) = inv.quantity - item.quantity :=
      max_eq_right (sub_nonneg.mpr hple)
    have hmaxv : max 0 (vi.quantity - item.quantity) = vi.quantity - item.quantity :=
      max_eq_right (sub_nonneg.mpr hvle)
    have hfind2 : findProductById db p.id = some p := by rw [hpq]; exact hfind
    have hstage : deductProductStage now ord item uid db
        = .ok (db.setProductInventory p.id
            { inv with quantity := max 0 (inv.quantity - item.quantity),
                       last_scanned_at := some now },
           [{ action := "order_out", quantity_change := -item.quantity,
              quantity_before := inv.quantity,
              quantity_after := max 0 (inv.quantity - item.quantity),
              reason := some ("Order " ++ ord), reference := some ord,
              device_type := none, device_info := none, user_id := uid }]) := by
      unfold deductProductStage
      rw [hpid]
      simp only [Option.some_bind, hfind, hinv]
      rw [if_neg (fun h => absurd h.1 (not_lt.mpr hple))]
    have hvfind1 : findVariantById
        (db.setProductInventory p.id
          { inv with quantity := max 0 (inv.quantity - item.quantity),
                     last_scanned_at := some now }) vid = some v := by
      rw [findVariantById_setProductInventory]
      exact hvfind
    have hvstage : deductVariantStage item
        (db.setProductInventory p.id
          { inv with quantity := max 0 (inv.quantity - item.quantity),
                     last_scanned_at := some now })
        = .ok ((db.setProductInventory p.id
            { inv with quantity := max 0 (inv.quantity - item.quantity),
                       last_scanned_at := some now }).setVariantInventory v.id
              { vi with quantity := max 0 (vi.quantity - item.quantity) }) := by
      unfold deductVariantStage
      rw [hvid]
      simp only [Option.some_bind, hvfind1, hvinv]
      rw [if_neg (not_lt.mpr hvle)]
    refine ⟨(db.setProductInventory p.id
        { inv with quantity := max 0 (inv.quantity - item.quantity),
                   last_scanned_at := some now }).setVariantInventory v.id
        { vi with quantity := max 0 (vi.quantity - item.quantity) },
      { action := "order_out", quantity_change := -item.quantity,
        quantity_before := inv.quantity,
        quantity_after := max 0 (inv.quantity - item.quantity),
        reason := some ("Order " ++ ord), reference := some ord,
        device_type := none, device_info := none, user_id := uid },
      ?_, ?_, ?_, ?_, ?_, ?_, ?_⟩
    · unfold deductForItem
      have htr : pyTruthyInt item.product_id = true := by
        rw [hpid]; simp [pyTruthyInt, hpid0]
      have hvtr : pyTruthyInt item.variant_id = true := by
        rw [hvid]; simp [pyTruthyInt, hvid0]
      simp only [htr, if_true, hstage, hvstage, hvtr]
    · rw [getProductInventory_setVariantInventory,
        getProductInventory_setProductInventory db p.id _ p hfind2, hmaxp]
    · have hvfind2 : findVariantById
          (db.setProductInventory p.id
            { inv with quantity := max 0 (inv.quantity - item.quantity),
                       last_scanned_at := some now }) v.id = some v := by
        rw [hvq]; exact hvfind1
      rw [getVariantInventory_setVariantInventory _ v.id _ v hvfind2, hmaxv]
    · rfl
    · rfl
    · rfl
    · rw [hmaxp]
  · intro now ord st items uid
    unfold create_order_endpoint
    cases h : create_order now ord items uid st.db with
    | error e => simp
    | ok r => simp

/-- C5 witness: a line of 4 units naming both product 3 (10 on hand) and
variant 12 (8 on hand) leaves the product record at 6 AND the variant
record at 4, with exactly one product-level `order_out` row and no
variant-level row. -/
theorem order_double_deduction_witness :
    (∃ db2 log,
        deductForItem 0 "ORD-1" itemC4 none dbC = .ok (db2, [log])
        ∧ getProductInventory db2 prodC.id
            = some { invTen with quantity := invTen.quantity - itemC4.quantity,
                                 last_scanned_at := some 0 }
        ∧ getVariantInventory db2 variantTwelve.id
            = some { vinvEight with quantity := vinvEight.quantity - itemC4.quantity }
        ∧ log.action = "order_out"
        ∧ log.quantity_change = -itemC4.quantity
        ∧ log.quantity_before = invTen.quantity
        ∧ log.quantity_after = invTen.quantity - itemC4.quantity)
    ∧ (create_order_commit 0 "ORD-1" storeC [itemC4] none).variant_logs
        = storeC.variant_logs :=
  ⟨order_double_deduction.1 0 "ORD-1" itemC4 none dbC 3 12 prodC invTen variantTwelve
      vinvEight rfl (by decide) rfl (by decide) (by decide) rfl (by decide) rfl
      (by decide) (by decide),
   order_double_deduction.2 0 "ORD-1" storeC [itemC4] none⟩

/-- C9: when a scan resolves a product (by id or product-level barcode, i.e.
the variant-barcode step missed) and the product has at least one variant,
the resolver targets the default variant's record — the first variant
flagged `is_default`, or the first variant in declared sort order (the
relationship's order) when none is flagged — and never the product's own
record. -/
theorem resolve_default_variant :
    ∀ (db : DB) (req : InventoryScanRequest) (p : Product),
      scanVariantLookup db req = none →
      scanProductLookup db req = some p →
      p.variants ≠ [] →
      List.Pairwise (fun a b => a.sort_order ≤ b.sort_order) p.variants →
      ∃ dv,
        ((p.variants.find? (fun v => v.is_default)) = some dv
          ∨ ((p.variants.find? (fun v => v.is_default)) = none
              ∧ p.variants.head? = some dv))
        ∧ resolveScan db req
            = (match dv.inventory with
               | some vi => .ok (.variantRec p dv vi)
               | none => .error .noInventoryRecord) := by
  intro db req p hvl hpl hne _hsorted
  have hie : p.variants.isEmpty = false := by
    cases hv : p.variants with
    | nil => exact absurd hv hne
    | cons a l => rfl
  cases hfd : p.variants.find? (fun v => v.is_default) with
  | some v0 =>
    refine ⟨v0, Or.inl rfl, ?_⟩
    unfold resolveScan
    simp only [hvl, hpl, hie, Bool.false_eq_true, if_false, default_variant, hfd]
  | none =>
    cases hv : p.variants with
    | nil => exact absurd hv hne
    | cons a l =>
      rw [hv] at hfd
      refine ⟨a, Or.inr ⟨rfl, rfl⟩, ?_⟩
      unfold resolveScan
      simp only [hvl, hpl, hie, Bool.false_eq_true, if_false, default_variant, hv, hfd,
        List.isEmpty_cons, List.head?_cons]

/-- C9 witness: product 5 has three variants in sort order with the middle
one flagged default; scanning by product id targets variant 22's record,
not the product's own. -/
theorem resolve_default_variant_witness :
    (∃ dv,
        ((prodD.variants.find? (fun v => v.is_default)) = some dv
          ∨ ((prodD.variants.find? (fun v => v.is_default)) = none
              ∧ prodD.variants.head? = some dv))
        ∧ resolveScan dbD reqScanD
            = (match dv.inventory with
               | some vi => .ok (.variantRec prodD dv vi)
               | none => .error .noInventoryRecord))
    ∧ resolveScan dbD reqScanD = .ok (.variantRec prodD variant22 vinvEight) :=
  ⟨resolve_default_variant dbD reqScanD prodD rfl (by decide) (by decide) (by decide),
   rfl⟩

/-- Shape of the log output of the product deduction stage: every row
satisfies `quantity_after = max 0 (quantity_before + quantity_change)`, and
there is exactly one row when the line resolves to a product with an
inventory record, none otherwise. -/
theorem deductProductStage_log_shape (now : Nat) (ord : String) (item : OrderItemInput)
    (uid : Option Int) (db : DB) :
    match deductProductStage now ord item uid db with
    | .ok r => r.2.all (fun log =>
          log.quantity_after == max 0 (log.quantity_before + log.quantity_change)) = true
        ∧ r.2.length = (match item.product_id.bind (fun pid => findProductById db pid) with
            | some p => (match p.inventory with | some _ => 1 | none => 0)
            | none => 0)
    | .error _ => True := by
  unfold deductProductStage
  cases hf : item.product_id.bind (fun pid => findProductById db pid) with
  | none => simp
  | some p =>
    dsimp only
    cases hi : p.inventory with
    | none => simp
    | some inv =>
      dsimp only
      by_cases hc : inv.quantity < item.quantity ∧ inv.allow_backorder = false
      · rw [if_pos hc]
        trivial
      · rw [if_neg hc]
        refine ⟨?_, rfl⟩
        simp [sub_eq_add_neg]

/-- C1 counterexample: with backorder allowed and 3 on hand, an order line
of 5 writes an `order_out` row with `quantity_before = 3`,
`quantity_change = -5`, `quantity_after = 0`, violating
`quantity_after = quantity_before + quantity_change`. -/
theorem log_balance_counterexample :
    (deductForItem 0 "ORD-1" itemFive none dbBackorder).toOption.map
      (fun r => r.2.map (fun log =>
        (log.quantity_before, log.quantity_change, log.quantity_after)))
      = some [(3, -5, 0)]
    ∧ (0 : Int) ≠ 3 + (-5) := by
  constructor
  · decide
  · decide

/-- C1 (amended): every log row written by `scan_in`/`scan_out`, the manual
product adjustment, and the variant `set`/`add`/`remove` satisfies
`quantity_after = quantity_before + quantity_change`; an `order_out` row
satisfies `quantity_after = max 0 (quantity_before + quantity_change)`,
which coincides with the sum except when the backorder clamp fires.  A
successful scan appends exactly one row; the manual product adjustment and
the variant `set`/`add`/`remove` append exactly one row exactly when the
quantity changes; a product-backed order line with an inventory record
appends exactly one `order_out` row. -/
theorem log_row_balance :
    (∀ (req : InventoryScanRequest) (now : Nat) (inv : Inventory) (uid : Option Int),
      match scanAdjustProduct req now inv uid with
      | .ok r => r.2.quantity_after = r.2.quantity_before + r.2.quantity_change
      | .error _ => True)
  ∧ (∀ (req : InventoryScanRequest) (inv : VariantInventory) (uid : Option Int),
      match scanAdjustVariant req inv uid with
      | .ok r => r.2.quantity_after = r.2.quantity_before + r.2.quantity_change
      | .error _ => True)
  ∧ (∀ (d : InventoryUpdate) (inv : Inventory) (uid : Option Int),
      match (update_inventory d inv uid).2 with
      | some log => log.quantity_after = log.quantity_before + log.quantity_change
      | none => True)
  ∧ (∀ (t : String) (q : Int) (r : Option String) (vi : VariantInventory) (uid : Option Int),
      match (update_variant_inventory t q r vi uid).2 with
      | some log => log.quantity_after = log.quantity_before + log.quantity_change
      | none => True)
  ∧ (∀ (now : Nat) (ord : String) (item : OrderItemInput) (uid : Option Int) (db : DB),
      match deductForItem now ord item uid db with
      | .ok r => r.2.all (fun log =>
          log.quantity_after == max 0 (log.quantity_before + log.quantity_change)) = true
      | .error _ => True)
  ∧ (∀ (now : Nat) (ord : String) (item : OrderItemInput) (uid : Option Int) (db : DB),
      match deductProductStage now ord item uid db with
      | .ok r => r.2.length
          = (match item.product_id.bind (fun pid => findProductById db pid) with
             | some p => (match p.inventory with | some _ => 1 | none => 0)
             | none => 0)
      | .error _ => True)
  ∧ (∀ (now : Nat) (st : Store) (req : InventoryScanRequest) (uid : Option Int),
      match scan_inventory now st req uid with
      | .ok st' => st'.inventory_logs.length + st'.variant_logs.length
          = st.inventory_logs.length + st.variant_logs.length + 1
      | .error _ => True)
  ∧ (∀ (d : InventoryUpdate) (inv : Inventory) (uid : Option Int),
      match d.quantity with
      | some q => (update_inventory d inv uid).2.toList.length
          = if q ≠ inv.quantity then 1 else 0
      | none => (update_inventory d inv uid).2 = none)
  ∧ (∀ (t : String) (q : Int) (r : Option String) (vi : VariantInventory) (uid : Option Int),
      (update_variant_inventory t q r vi uid).2.toList.length
        = if (update_variant_inventory t q r vi uid).1.quantity ≠ vi.quantity then 1 else 0) := by
  refine ⟨?_, ?_, ?_, ?_, ?_, ?_, ?_, ?_, ?_⟩
  · intro req now inv uid
    unfold scanAdjustProduct
    by_cases h1 : (req.action == "scan_in") = true
    · simp [h1]
    · by_cases h2 : (req.action == "scan_out") = true
      · by_cases h3 : inv.quantity + -|req.quantity| < 0
        · simp [h1, h2, h3]
        · simp [h1, h2, h3]
      · simp [h1, h2]
  · intro req inv uid
    unfold scanAdjustVariant
    by_cases h1 : (req.action == "scan_in") = true
    · simp [h1]
    · by_cases h2 : (req.action == "scan_out") = true
      · by_cases h3 : inv.quantity + -|req.quantity| < 0
        · simp [h1, h2, h3]
        · simp [h1, h2, h3]
      · simp [h1, h2]
  · intro d inv uid
    unfold update_inventory
    cases hq : d.quantity with
    | none => simp
    | some q =>
      by_cases h : (q != inv.quantity) = true
      · simp only [h, if_true]
        omega
      · simp [h]
  · intro t q r vi uid
    unfold update_variant_inventory
    dsimp only
    generalize (if t == "set" then q
        else if t == "add" then vi.quantity + q
        else if t == "remove" then max 0 (vi.quantity - q)
        else vi.quantity) = n
    by_cases h : n - vi.quantity = 0
    · simp [h]
    · simp [h]
  · intro now ord item uid db
    unfold deductForItem
    by_cases ht : pyTruthyInt item.product_id = true
    · simp only [ht, if_true]
      have hst := deductProductStage_log_shape now ord item uid db
      cases hs : deductProductStage now ord item uid db with
      | error e => simp
      | ok r =>
        rw [hs] at hst
        obtain ⟨db1, logs⟩ := r
        dsimp only
        by_cases hv : pyTruthyInt item.variant_id = true
        · simp only [hv, if_true]
          cases hd : deductVariantStage item db1 with
          | error e => simp
          | ok db2 =>
            dsimp only
            exact hst.1
        · rw [if_neg hv]
          dsimp only
          exact hst.1
    · rw [if_neg ht]
      simp
  · intro now ord item uid db
    have hst := deductProductStage_log_shape now ord item uid db
    cases hs : deductProductStage now ord item uid db with
    | error e => simp
    | ok r =>
      rw [hs] at hst
      exact hst.2
  · intro now st req uid
    unfold scan_inventory
    cases hr : resolveScan st.db req with
    | error e => simp
    | ok target =>
      cases target with
      | productRec p inv =>
        cases ha : scanAdjustProduct req now inv uid with
        | error e => simp [ha]
        | ok r =>
          obtain ⟨inv', log⟩ := r
          simp [ha]
          omega
      | variantRec p v vi =>
        cases ha : scanAdjustVariant req vi uid with
        | error e => simp [ha]
        | ok r =>
          obtain ⟨vi', vlog⟩ := r
          simp [ha]
          omega
  · intro d inv uid
    unfold update_inventory
    cases hq : d.quantity with
    | none => simp
    | some q =>
      by_cases h : (q != inv.quantity) = true
      · have h2 : q ≠ inv.quantity := by simpa using h
        simp [h, h2]
      · have h2 : ¬(q ≠ inv.quantity) := by simpa using h
        simp [h, h2]
  · intro t q r vi uid
    unfold update_variant_inventory
    dsimp only
    generalize (if t == "set" then q
        else if t == "add" then vi.quantity + q
        else if t == "remove" then max 0 (vi.quantity - q)
        else vi.quantity) = n
    by_cases h : n - vi.quantity = 0
    · have h2 : n = vi.quantity := by omega
      simp [h, h2]
    · have h2 : n ≠ vi.quantity := by omega
      simp [h, h2]

end SpCustoms
